import Mathlib

/-!
Verification of the ordered-fallback join relay (`api/join.js`).

The development shallowly embeds the handler: candidate building
(`defaultCandidates` and the explicit-list branch of `handler`), attempt
execution under `withTimeout` (`executeAttempt`), the fallback loop
(`dispatchLoop`), and the final response translation.

External collaborators are modelled abstractly:
* `JSON.parse` of the platform is a parameter `parse : String → Option JsValue`
  (`some v` when the text parses, `none` when `JSON.parse` throws);
* the network is an environment `env : Nat → FetchEvent` giving, for the
  i-th executed fetch, what the platform `fetch` call observably did.
-/

/-- A JSON value, the shape of parsed upstream bodies and of the JSON
payloads the handler serializes and returns. -/
inductive JsValue where
  | null
  | bool (b : Bool)
  | num (n : Int)
  | str (s : String)
  | arr (elems : List JsValue)
  | obj (fields : List (String × JsValue))
deriving Repr

/-- HTTP method of an attempt: the code only ever builds GET and POST. -/
inductive Method where
  | GET
  | POST
deriving Repr, DecidableEq

/-- One attempt descriptor, as pushed onto the `attempts` list in
`api/join.js`: `{ info, method, url, body }`.  GET attempts carry no
`body` field, modelled as `none`. -/
structure Attempt where
  info : String
  method : Method
  url : String
  body : Option JsValue
deriving Repr

/-- The value the per-attempt async closure resolves with in
`api/join.js` (`{ ok, status, data, info }`). -/
structure Outcome where
  ok : Bool
  status : Nat
  data : JsValue
  info : String
deriving Repr

/-- What one `fetch` call under `withTimeout` observably did:

* `responds status text` — `fetch` resolved with an upstream response of
  the given status; `text = some raw` means `upstream.text()` resolved
  with `raw`, while `text = none` means reading the body text failed
  (the connection dropped, or the timeout fired and aborted the call,
  during the body read — `upstream.text()` rejected).
* `fails timedOut` — the `fetch` promise itself rejected before a
  response was available: the timeout fired (`timedOut = true`) and the
  abort signal cancelled the call, or a network/DNS/CORS-level error
  occurred (`timedOut = false`).  The code's `catch (e)` does not
  inspect the error, so the flag is carried only to state that both
  causes behave identically. -/
inductive FetchEvent where
  | responds (status : Nat) (text : Option String)
  | fails (timedOut : Bool)
deriving Repr

/-- The `lastError` record threaded through the fallback loop
(`{ status, message, data }`; `data` is absent — `none` — when the
failure was a thrown fetch, present when the upstream answered). -/
structure LastError where
  status : Nat
  message : String
  data : Option JsValue
deriving Repr

/-- A caller-facing response: the argument of `res.status(...)` plus the
JSON object passed to `.json(...)`. -/
structure HttpResponse where
  status : Nat
  body : JsValue
deriving Repr

/-- Modelled from the platform: the unreserved characters of ECMA-262
`encodeURIComponent` (`A–Z a–z 0–9 - _ . ! ~ * ' ( )`), which are copied
to the output verbatim.  Code point 39 is the apostrophe. -/
def isURIUnreserved (c : Char) : Bool :=
  c.isAlphanum || c = '-' || c = '_' || c = '.' || c = '!' || c = '~' ||
    c = '*' || c.toNat = 39 || c = '(' || c = ')'

/-- Uppercase hexadecimal digit for a value below 16. -/
def hexDigit (n : Nat) : Char :=
  if n < 10 then Char.ofNat (48 + n) else Char.ofNat (55 + n)

/-- `%XX` escape of one byte, uppercase hex. -/
def percentByte (b : Nat) : String :=
  String.mk ['%', hexDigit (b / 16), hexDigit (b % 16)]

/-- UTF-8 bytes of one scalar value (1 to 4 bytes). -/
def utf8Bytes (c : Char) : List Nat :=
  let n := c.toNat
  if n < 128 then [n]
  else if n < 2048 then [192 + n / 64, 128 + n % 64]
  else if n < 65536 then [224 + n / 4096, 128 + (n / 64) % 64, 128 + n % 64]
  else [240 + n / 262144, 128 + (n / 4096) % 64, 128 + (n / 64) % 64, 128 + n % 64]

/-- Modelled from the platform: ECMA-262 `encodeURIComponent` — each
unreserved character is copied, every other character is replaced by the
uppercase `%XX` escapes of its UTF-8 bytes. -/
def encodeURIComponent (s : String) : String :=
  String.join (s.toList.map fun c =>
    if isURIUnreserved c then String.mk [c]
    else String.join ((utf8Bytes c).map percentByte))

/-- The GET query string built in `api/join.js`:
`code=${enc(code)}&name=${enc(name)}`. -/
def getQuery (code name : String) : String :=
  "code=" ++ encodeURIComponent code ++ "&name=" ++ encodeURIComponent name

/-- The POST descriptor pushed for a candidate URL `u` in `api/join.js`
(both in `defaultCandidates` and in the explicit-list branch of the
handler): the raw URL as target and payload `{ code, name }`. -/
def postAttempt (code name u : String) : Attempt :=
  { info := "POST " ++ u
    method := Method.POST
    url := u
    body := some (JsValue.obj [("code", JsValue.str code), ("name", JsValue.str name)]) }

/-- The GET descriptor pushed for a candidate URL `u`: the query string
appended to the URL, no body. -/
def getAttempt (code name u : String) : Attempt :=
  { info := "GET " ++ u ++ "?" ++ getQuery code name
    method := Method.GET
    url := u ++ "?" ++ getQuery code name
    body := none }

/-- The two descriptors pushed per candidate URL, POST first. -/
def attemptPair (code name u : String) : List Attempt :=
  [postAttempt code name u, getAttempt code name u]

/-- `defaultCandidates(base, code, name)` from `api/join.js`.  The JS
function also reads the module-global `UPSTREAM_URLS`, passed here as
`upstreamUrls`; `base ? [base] : []` makes the empty string the only
falsy base. -/
def defaultCandidates (upstreamUrls : List String) (base code name : String) :
    List Attempt :=
  let roots := if base = "" then [] else [base]
  let urls :=
    if upstreamUrls.length = 0 then
      roots.flatMap fun r => [r ++ "/api/join", r ++ "/v1/join", r ++ "/join"]
    else upstreamUrls
  urls.flatMap (attemptPair code name)

/-- The `attempts` list the handler builds: the explicit-list branch when
`UPSTREAM_URLS.length` is truthy, else `defaultCandidates(UPSTREAM_BASE)`. -/
def buildAttempts (upstreamUrls : List String) (base code name : String) :
    List Attempt :=
  if upstreamUrls.length = 0 then defaultCandidates upstreamUrls base code name
  else upstreamUrls.flatMap (attemptPair code name)

/-- Modelled from the platform: `Response.ok` of WHATWG fetch is true
exactly when the status is in the inclusive range 200–299. -/
def responseOk (status : Nat) : Bool :=
  200 ≤ status && status ≤ 299

/-- Body normalization in the attempt closure:
`data = rawText ? JSON.parse(rawText) : {}` with the parse failure caught
as `data = rawText`.  The empty string is the only falsy string, so an
empty text is never parsed and becomes the empty object. -/
def normalizeBody (parse : String → Option JsValue) (rawText : String) : JsValue :=
  if rawText = "" then JsValue.obj []
  else
    match parse rawText with
    | some v => v
    | none => JsValue.str rawText

/-- One execution of the per-attempt closure under `withTimeout`, given
what the fetch did (`ev`).  `none` models the closure throwing (the
`fetch` promise rejected — network error or abort), landing in the
handler's `catch (e)`.  When fetch resolved, a failed `upstream.text()`
is swallowed by `.catch(() => "")` into the empty string, and the
outcome is `{ ok: upstream.ok, status, data, info }`. -/
def executeAttempt (parse : String → Option JsValue) (a : Attempt)
    (ev : FetchEvent) : Option Outcome :=
  match ev with
  | FetchEvent.fails _ => none
  | FetchEvent.responds status textRes =>
      let rawText := textRes.getD ""
      some { ok := responseOk status
             status := status
             data := normalizeBody parse rawText
             info := a.info }

/-- The JSON object of the success response:
`{ joined: true, upstreamStatus, via, data }`. -/
def successBody (out : Outcome) : JsValue :=
  JsValue.obj
    [ ("joined", JsValue.bool true),
      ("upstreamStatus", JsValue.num (out.status : Int)),
      ("via", JsValue.str out.info),
      ("data", out.data) ]

/-- The JSON object of the failure response:
`{ joined: false, error, upstreamData: lastError.data ?? null }`. -/
def failureBody (le : LastError) : JsValue :=
  JsValue.obj
    [ ("joined", JsValue.bool false),
      ("error", JsValue.str le.message),
      ("upstreamData", le.data.getD JsValue.null) ]

/-- The fallback loop of the handler (`for (const a of attempts)`),
including the final `res.status(lastError.status || 502)` translation
when the loop exhausts the list.  `i` is the index of the next attempt in
the environment; the second component records, in order, every attempt
whose fetch was actually executed. -/
def dispatchLoop (parse : String → Option JsValue) (env : Nat → FetchEvent) :
    List Attempt → Nat → LastError → HttpResponse × List Attempt
  | [], _, le =>
      ({ status := if le.status = 0 then 502 else le.status
         body := failureBody le }, [])
  | a :: rest, i, _ =>
      match executeAttempt parse a (env i) with
      | none =>
          let r := dispatchLoop parse env rest (i + 1)
            { status := 502
              message := "Fetch failed (timeout/CORS/host) via " ++ a.info
              data := none }
          (r.1, a :: r.2)
      | some out =>
          if out.ok then
            ({ status := 200, body := successBody out }, [a])
          else
            let r := dispatchLoop parse env rest (i + 1)
              { status := out.status
                message := "Upstream error via " ++ out.info
                data := some out.data }
            (r.1, a :: r.2)

/-- JS truthiness of a possibly-absent string field: `undefined` and the
empty string are the falsy cases of `!code`. -/
def jsFalsy : Option String → Bool
  | none => true
  | some s => s = ""

/-- The POST path of the handler, from the `{ code, name }` validation
onward: validation, candidate building, the fallback loop, and the final
response.  The second component lists the attempts actually executed. -/
def handler (parse : String → Option JsValue) (env : Nat → FetchEvent)
    (upstreamUrls : List String) (upstreamBase : String)
    (code name : Option String) : HttpResponse × List Attempt :=
  if jsFalsy code || jsFalsy name then
    ({ status := 400
       body := JsValue.obj [("error", JsValue.str "Missing code or name")] }, [])
  else
    dispatchLoop parse env
      (buildAttempts upstreamUrls upstreamBase (code.getD "") (name.getD "")) 0
      { status := 500, message := "No attempts made.", data := none }

/-- `true` when executing the attempt against this event does not
short-circuit the loop: the closure threw, or the upstream answered with
a non-success status. -/
def attemptFailsB (parse : String → Option JsValue) (a : Attempt)
    (ev : FetchEvent) : Bool :=
  match executeAttempt parse a ev with
  | none => true
  | some out => !out.ok

/-- Field lookup in a JSON object, `none` on non-objects and missing
keys; used to state which fields the caller-facing bodies carry. -/
def lookupField (j : JsValue) (key : String) : Option JsValue :=
  match j with
  | JsValue.obj fields => (fields.find? fun p => p.1 == key).map fun p => p.2
  | _ => none

/-- The `lastError` the loop records for a failed attempt: the catch
branch when the closure threw, the upstream-error branch when the
upstream answered with a non-success status. -/
def recordedFailure (parse : String → Option JsValue) (a : Attempt)
    (ev : FetchEvent) : LastError :=
  match executeAttempt parse a ev with
  | none =>
      { status := 502
        message := "Fetch failed (timeout/CORS/host) via " ++ a.info
        data := none }
  | some out =>
      { status := out.status
        message := "Upstream error via " ++ out.info
        data := some out.data }

lemma dispatchLoop_cons_fail (parse : String → Option JsValue)
    (env : Nat → FetchEvent) (a : Attempt) (rest : List Attempt) (i : Nat)
    (le : LastError) (h : attemptFailsB parse a (env i) = true) :
    dispatchLoop parse env (a :: rest) i le =
      ((dispatchLoop parse env rest (i + 1) (recordedFailure parse a (env i))).1,
       a :: (dispatchLoop parse env rest (i + 1) (recordedFailure parse a (env i))).2) := by
  unfold attemptFailsB at h
  cases hex : executeAttempt parse a (env i) with
  | none => simp [dispatchLoop, hex, recordedFailure]
  | some out =>
      rw [hex] at h
      simp only [Bool.not_eq_true'] at h
      simp [dispatchLoop, hex, recordedFailure, h]

lemma dispatchLoop_cons_success (parse : String → Option JsValue)
    (env : Nat → FetchEvent) (a : Attempt) (rest : List Attempt) (i : Nat)
    (le : LastError) (out : Outcome)
    (hex : executeAttempt parse a (env i) = some out) (hok : out.ok = true) :
    dispatchLoop parse env (a :: rest) i le =
      ({ status := 200, body := successBody out }, [a]) := by
  simp [dispatchLoop, hex, hok]

lemma executeAttempt_info (parse : String → Option JsValue) (a : Attempt)
    (ev : FetchEvent) (out : Outcome)
    (hex : executeAttempt parse a ev = some out) : out.info = a.info := by
  cases ev with
  | fails b => simp [executeAttempt] at hex
  | responds s t =>
      simp [executeAttempt] at hex
      rw [← hex]

lemma dispatchLoop_prefix_fail_success (parse : String → Option JsValue)
    (env : Nat → FetchEvent) :
    ∀ (pre : List Attempt) (a : Attempt) (post : List Attempt) (i : Nat)
      (le : LastError) (out : Outcome),
      (∀ j (hj : j < pre.length),
        attemptFailsB parse (pre.get ⟨j, hj⟩) (env (i + j)) = true) →
      executeAttempt parse a (env (i + pre.length)) = some out →
      out.ok = true →
      dispatchLoop parse env (pre ++ a :: post) i le =
        ({ status := 200, body := successBody out }, pre ++ [a])
  | [], a, post, i, le, out => by
      intro _ hex hok
      simpa using dispatchLoop_cons_success parse env a post i le out
        (by simpa using hex) hok
  | p :: pre, a, post, i, le, out => by
      intro hfail hex hok
      have h0 : attemptFailsB parse p (env i) = true := by
        have := hfail 0 (by simp)
        simpa using this
      rw [List.cons_append, dispatchLoop_cons_fail parse env p _ i le h0]
      have ih := dispatchLoop_prefix_fail_success parse env pre a post (i + 1)
        (recordedFailure parse p (env i)) out
        (by
          intro j hj
          have := hfail (j + 1) (by simpa using Nat.succ_lt_succ hj)
          have harith : i + (j + 1) = i + 1 + j := by omega
          simpa [harith] using this)
        (by
          have harith : i + (p :: pre).length = i + 1 + pre.length := by
            simp; omega
          rw [harith] at hex
          exact hex)
        hok
      rw [ih]
      simp

lemma dispatchLoop_all_fail (parse : String → Option JsValue)
    (env : Nat → FetchEvent) :
    ∀ (pre : List Attempt) (a : Attempt) (i : Nat) (le : LastError),
      (∀ j (hj : j < pre.length),
        attemptFailsB parse (pre.get ⟨j, hj⟩) (env (i + j)) = true) →
      attemptFailsB parse a (env (i + pre.length)) = true →
      dispatchLoop parse env (pre ++ [a]) i le =
        ({ status :=
             if (recordedFailure parse a (env (i + pre.length))).status = 0 then 502
             else (recordedFailure parse a (env (i + pre.length))).status
           body := failureBody (recordedFailure parse a (env (i + pre.length))) },
         pre ++ [a])
  | [], a, i, le => by
      intro _ hlast
      rw [List.nil_append]
      rw [dispatchLoop_cons_fail parse env a [] i le (by simpa using hlast)]
      simp [dispatchLoop]
  | p :: pre, a, i, le => by
      intro hfail hlast
      have h0 : attemptFailsB parse p (env i) = true := by
        have := hfail 0 (by simp)
        simpa using this
      rw [List.cons_append, dispatchLoop_cons_fail parse env p _ i le h0]
      have harith : i + (p :: pre).length = i + 1 + pre.length := by
        simp; omega
      have ih := dispatchLoop_all_fail parse env pre a (i + 1)
        (recordedFailure parse p (env i))
        (by
          intro j hj
          have := hfail (j + 1) (by simpa using Nat.succ_lt_succ hj)
          have ha : i + (j + 1) = i + 1 + j := by omega
          simpa [ha] using this)
        (by rw [harith] at hlast; exact hlast)
      rw [ih, harith]

lemma flatMap_attemptPair_length (code name : String) :
    ∀ urls : List String,
      (urls.flatMap (attemptPair code name)).length = 2 * urls.length
  | [] => by simp
  | u :: rest => by
      simp [attemptPair, flatMap_attemptPair_length code name rest]
      omega

lemma flatMap_attemptPair_getElem (code name : String) :
    ∀ (urls : List String) (i : Nat) (u : String), urls[i]? = some u →
      (urls.flatMap (attemptPair code name))[2 * i]? =
        some (postAttempt code name u) ∧
      (urls.flatMap (attemptPair code name))[2 * i + 1]? =
        some (getAttempt code name u)
  | [], i, u => by
      intro h
      simp at h
  | u' :: rest, 0, u => by
      intro h
      simp only [List.getElem?_cons_zero, Option.some.injEq] at h
      subst h
      simp [attemptPair]
  | u' :: rest, i + 1, u => by
      intro h
      simp only [List.getElem?_cons_succ] at h
      have ih := flatMap_attemptPair_getElem code name rest i u h
      have h2 : 2 * (i + 1) = 2 * i + 1 + 1 := by omega
      have hflat : (u' :: rest).flatMap (attemptPair code name) =
          postAttempt code name u' :: getAttempt code name u' ::
            rest.flatMap (attemptPair code name) := by
        simp [attemptPair]
      rw [hflat, h2]
      constructor
      · rw [List.getElem?_cons_succ, List.getElem?_cons_succ]
        exact ih.1
      · rw [List.getElem?_cons_succ, List.getElem?_cons_succ]
        exact ih.2

lemma append_ne_of_length_lt (pre s t : String) (h : t.length < pre.length) :
    pre ++ s ≠ t := by
  intro he
  have hlen := congrArg String.length he
  rw [String.length_append] at hlen
  omega

lemma dispatchLoop_joined_imp_200 (parse : String → Option JsValue)
    (env : Nat → FetchEvent) :
    ∀ (attempts : List Attempt) (i : Nat) (le : LastError),
      lookupField (dispatchLoop parse env attempts i le).1.body "joined" =
        some (JsValue.bool true) →
      (dispatchLoop parse env attempts i le).1.status = 200
  | [], i, le => by
      intro h
      simp [dispatchLoop, failureBody, lookupField, List.find?] at h
  | a :: rest, i, le => by
      intro h
      cases hex : executeAttempt parse a (env i) with
      | none =>
          have hfb : attemptFailsB parse a (env i) = true := by
            simp [attemptFailsB, hex]
          rw [dispatchLoop_cons_fail parse env a rest i le hfb] at h ⊢
          exact dispatchLoop_joined_imp_200 parse env rest (i + 1) _ h
      | some out =>
          by_cases hok : out.ok = true
          · rw [dispatchLoop_cons_success parse env a rest i le out hex hok]
          · have hfb : attemptFailsB parse a (env i) = true := by
              simp [attemptFailsB, hex]
              simpa using hok
            rw [dispatchLoop_cons_fail parse env a rest i le hfb] at h ⊢
            exact dispatchLoop_joined_imp_200 parse env rest (i + 1) _ h

/-- A concrete stand-in for `JSON.parse` used by the witnesses: the text
`"ok"` parses to the object `{"room": "x"}`, everything else throws. -/
def jsonParseStub : String → Option JsValue :=
  fun s => if s = "ok" then some (JsValue.obj [("room", JsValue.str "x")]) else none

/-- The initial `lastError` of the handler loop. -/
def noAttemptsError : LastError :=
  { status := 500, message := "No attempts made.", data := none }

/-- C1: for every non-empty descriptor sequence in which the k-th
descriptor's execution succeeds and every descriptor before it fails
(here the sequence is `pre ++ a :: post` with `k = pre.length`), the
dispatch loop returns a success result carrying the k-th outcome's
status, label (as `via`) and body, and never executes any descriptor
after the k-th: the trace of executed descriptors is exactly
`pre ++ [a]`. -/
theorem firstSuccessWins (parse : String → Option JsValue)
    (env : Nat → FetchEvent) (pre : List Attempt) (a : Attempt)
    (post : List Attempt) (out : Outcome)
    (hfail : ∀ j (hj : j < pre.length),
      attemptFailsB parse (pre.get ⟨j, hj⟩) (env j) = true)
    (hsucc : executeAttempt parse a (env pre.length) = some out)
    (hok : out.ok = true) :
    dispatchLoop parse env (pre ++ a :: post) 0 noAttemptsError =
      ({ status := 200
         body := JsValue.obj
           [ ("joined", JsValue.bool true),
             ("upstreamStatus", JsValue.num (out.status : Int)),
             ("via", JsValue.str a.info),
             ("data", out.data) ] }, pre ++ [a]) := by
  have hinfo := executeAttempt_info parse a (env pre.length) out hsucc
  have h := dispatchLoop_prefix_fail_success parse env pre a post 0
    noAttemptsError out
    (by intro j hj; simpa using hfail j hj)
    (by simpa using hsucc) hok
  rw [h]
  simp [successBody, hinfo]

theorem firstSuccessWins_witness :
    dispatchLoop jsonParseStub
        (fun i => if i = 0 then FetchEvent.responds 500 (some "err")
          else FetchEvent.responds 200 (some "ok"))
        [postAttempt "c" "n" "https://a.test", getAttempt "c" "n" "https://a.test"]
        0 noAttemptsError =
      ({ status := 200
         body := JsValue.obj
           [ ("joined", JsValue.bool true),
             ("upstreamStatus", JsValue.num 200),
             ("via", JsValue.str (getAttempt "c" "n" "https://a.test").info),
             ("data", JsValue.obj [("room", JsValue.str "x")]) ] },
       [postAttempt "c" "n" "https://a.test", getAttempt "c" "n" "https://a.test"]) :=
  firstSuccessWins jsonParseStub
    (fun i => if i = 0 then FetchEvent.responds 500 (some "err")
      else FetchEvent.responds 200 (some "ok"))
    [postAttempt "c" "n" "https://a.test"]
    (getAttempt "c" "n" "https://a.test") []
    { ok := true, status := 200, data := JsValue.obj [("room", JsValue.str "x")],
      info := (getAttempt "c" "n" "https://a.test").info }
    (by decide) rfl rfl

/-- C2: for every non-empty code and name and every explicit upstream
target list, the candidate builder produces exactly `2 * N` descriptors;
for the `i`-th target `u`, descriptor `2i` is the POST with the raw URL
and payload `{code, name}` and descriptor `2i + 1` is the GET with the
percent-encoded query appended. -/
theorem explicitListBuildsPairs (urls : List String) (base code name : String)
    (hurls : urls ≠ []) (_hcode : code ≠ "") (_hname : name ≠ "") :
    (buildAttempts urls base code name).length = 2 * urls.length ∧
    ∀ i u, urls[i]? = some u →
      (buildAttempts urls base code name)[2 * i]? =
        some { info := "POST " ++ u
               method := Method.POST
               url := u
               body := some (JsValue.obj
                 [("code", JsValue.str code), ("name", JsValue.str name)]) } ∧
      (buildAttempts urls base code name)[2 * i + 1]? =
        some { info := "GET " ++ u ++ "?" ++
                 ("code=" ++ encodeURIComponent code ++ "&name=" ++
                   encodeURIComponent name)
               method := Method.GET
               url := u ++ "?" ++
                 ("code=" ++ encodeURIComponent code ++ "&name=" ++
                   encodeURIComponent name)
               body := none } := by
  have hlen : ¬ urls.length = 0 := by
    simpa [List.length_eq_zero] using hurls
  have hb : buildAttempts urls base code name =
      urls.flatMap (attemptPair code name) := by
    simp [buildAttempts, hlen]
  refine ⟨?_, ?_⟩
  · rw [hb]
    exact flatMap_attemptPair_length code name urls
  · intro i u h
    have hidx := flatMap_attemptPair_getElem code name urls i u h
    rw [hb]
    exact ⟨hidx.1, hidx.2⟩

theorem explicitListBuildsPairs_witness :
    (buildAttempts ["https://a.test", "https://b.test"] "" "c d" "n").length = 4 ∧
    (buildAttempts ["https://a.test", "https://b.test"] "" "c d" "n")[2]? =
      some (postAttempt "c d" "n" "https://b.test") ∧
    (buildAttempts ["https://a.test", "https://b.test"] "" "c d" "n")[3]? =
      some (getAttempt "c d" "n" "https://b.test") :=
  ⟨(explicitListBuildsPairs ["https://a.test", "https://b.test"] "" "c d" "n"
      (by decide) (by decide) (by decide)).1,
   ((explicitListBuildsPairs ["https://a.test", "https://b.test"] "" "c d" "n"
      (by decide) (by decide) (by decide)).2 1 "https://b.test" rfl).1,
   ((explicitListBuildsPairs ["https://a.test", "https://b.test"] "" "c d" "n"
      (by decide) (by decide) (by decide)).2 1 "https://b.test" rfl).2⟩

/-- C3: for every non-empty code and name, when no explicit target list
is configured but a single base location is, the candidate builder
produces exactly the six descriptors POST base/api/join, GET
base/api/join, POST base/v1/join, GET base/v1/join, POST base/join, GET
base/join, in that order; when neither is configured the sequence is
empty. -/
theorem singleBaseBuildsSix (base code name : String) (hbase : base ≠ "")
    (_hcode : code ≠ "") (_hname : name ≠ "") :
    buildAttempts [] base code name =
      [ postAttempt code name (base ++ "/api/join"),
        getAttempt code name (base ++ "/api/join"),
        postAttempt code name (base ++ "/v1/join"),
        getAttempt code name (base ++ "/v1/join"),
        postAttempt code name (base ++ "/join"),
        getAttempt code name (base ++ "/join") ] ∧
    buildAttempts [] "" code name = [] := by
  constructor
  · simp [buildAttempts, defaultCandidates, attemptPair, hbase]
  · simp [buildAttempts, defaultCandidates]

theorem singleBaseBuildsSix_witness :
    buildAttempts [] "https://b" "c" "n" =
      [ postAttempt "c" "n" "https://b/api/join",
        getAttempt "c" "n" "https://b/api/join",
        postAttempt "c" "n" "https://b/v1/join",
        getAttempt "c" "n" "https://b/v1/join",
        postAttempt "c" "n" "https://b/join",
        getAttempt "c" "n" "https://b/join" ] ∧
    buildAttempts [] "" "c" "n" = [] :=
  singleBaseBuildsSix "https://b" "c" "n" (by decide) (by decide) (by decide)

/-- C4: for every descriptor sequence in which every descriptor's
execution fails (here `pre ++ [a]`, the last being `a`), the final
result has `joined = false`, its error message references the label of
the last descriptor `a`, its status is the last failure's upstream
status when a response was received (upstream statuses are positive) and
the generic 502 otherwise, and `upstreamData` is the last failure's
captured body or null when none was captured. -/
theorem exhaustionReportsLastFailure (parse : String → Option JsValue)
    (env : Nat → FetchEvent) (pre : List Attempt) (a : Attempt)
    (hfail : ∀ j (hj : j < pre.length),
      attemptFailsB parse (pre.get ⟨j, hj⟩) (env j) = true)
    (hlast : attemptFailsB parse a (env pre.length) = true)
    (hstat : ∀ s t, env pre.length = FetchEvent.responds s t → 0 < s) :
    dispatchLoop parse env (pre ++ [a]) 0 noAttemptsError =
      (match executeAttempt parse a (env pre.length) with
       | none =>
          { status := 502
            body := JsValue.obj
              [ ("joined", JsValue.bool false),
                ("error", JsValue.str
                  ("Fetch failed (timeout/CORS/host) via " ++ a.info)),
                ("upstreamData", JsValue.null) ] }
       | some out =>
          { status := out.status
            body := JsValue.obj
              [ ("joined", JsValue.bool false),
                ("error", JsValue.str ("Upstream error via " ++ a.info)),
                ("upstreamData", out.data) ] },
       pre ++ [a]) := by
  have h := dispatchLoop_all_fail parse env pre a 0 noAttemptsError
    (by intro j hj; simpa using hfail j hj)
    (by simpa using hlast)
  simp only [Nat.zero_add] at h
  rw [h]
  cases hex : executeAttempt parse a (env pre.length) with
  | none => simp [recordedFailure, hex, failureBody]
  | some out =>
      have hinfo := executeAttempt_info parse a (env pre.length) out hex
      have hs : 0 < out.status := by
        cases hev : env pre.length with
        | fails b =>
            rw [hev] at hex
            simp [executeAttempt] at hex
        | responds s t =>
            have hss := hstat s t hev
            rw [hev] at hex
            simp [executeAttempt] at hex
            rw [← hex]
            exact hss
      have hne : ¬ out.status = 0 := by omega
      simp [recordedFailure, hex, failureBody, hinfo, hne]

theorem exhaustionReportsLastFailure_witness :
    dispatchLoop jsonParseStub
        (fun i => if i = 0 then FetchEvent.fails true
          else FetchEvent.responds 503 (some "bad"))
        ([postAttempt "c" "n" "u1"] ++ [getAttempt "c" "n" "u1"]) 0
        noAttemptsError =
      ({ status := 503
         body := JsValue.obj
           [ ("joined", JsValue.bool false),
             ("error", JsValue.str
               ("Upstream error via " ++ (getAttempt "c" "n" "u1").info)),
             ("upstreamData", JsValue.str "bad") ] },
       [postAttempt "c" "n" "u1"] ++ [getAttempt "c" "n" "u1"]) :=
  exhaustionReportsLastFailure jsonParseStub
    (fun i => if i = 0 then FetchEvent.fails true
      else FetchEvent.responds 503 (some "bad"))
    [postAttempt "c" "n" "u1"] (getAttempt "c" "n" "u1")
    (by decide)
    (by decide)
    (by
      intro s t h
      injection h with h1 h2
      omega)

/-- C5, counterexample: an upstream response whose body text is the
empty string.  `JSON.parse("")` throws (no parse function is even
consulted: the truthiness check short-circuits), so by the claim the raw
text `""` should be carried unmodified as the body — but the code
produces the empty object `{}`, which is not the raw text. -/
theorem emptyBodyNotRawText :
    executeAttempt (fun _ => none) (postAttempt "c" "n" "u")
        (FetchEvent.responds 200 (some "")) =
      some { ok := true, status := 200, data := JsValue.obj []
             info := (postAttempt "c" "n" "u").info } ∧
    JsValue.obj [] ≠ JsValue.str "" :=
  ⟨rfl, fun h => JsValue.noConfusion h⟩

/-- C5, amended: the outcome's body is the parsed JSON value unmodified
when the body text is non-empty and parses; the raw text unmodified when
it is non-empty and does not parse; and the empty object `{}` when the
body text is empty or reading the response text fails. -/
theorem bodyNormalization (parse : String → Option JsValue) (a : Attempt)
    (s : Nat) :
    (∀ raw v, raw ≠ "" → parse raw = some v →
      executeAttempt parse a (FetchEvent.responds s (some raw)) =
        some { ok := responseOk s, status := s, data := v, info := a.info }) ∧
    (∀ raw, raw ≠ "" → parse raw = none →
      executeAttempt parse a (FetchEvent.responds s (some raw)) =
        some { ok := responseOk s, status := s, data := JsValue.str raw
               info := a.info }) ∧
    executeAttempt parse a (FetchEvent.responds s (some "")) =
      some { ok := responseOk s, status := s, data := JsValue.obj []
             info := a.info } ∧
    executeAttempt parse a (FetchEvent.responds s none) =
      some { ok := responseOk s, status := s, data := JsValue.obj []
             info := a.info } := by
  refine ⟨?_, ?_, ?_, ?_⟩
  · intro raw v hne hp
    simp [executeAttempt, normalizeBody, hne, hp]
  · intro raw hne hp
    simp [executeAttempt, normalizeBody, hne, hp]
  · simp [executeAttempt, normalizeBody]
  · simp [executeAttempt, normalizeBody]

theorem bodyNormalization_witness :
    executeAttempt jsonParseStub (postAttempt "c" "n" "u")
        (FetchEvent.responds 200 (some "ok")) =
      some { ok := responseOk 200, status := 200
             data := JsValue.obj [("room", JsValue.str "x")]
             info := (postAttempt "c" "n" "u").info } ∧
    executeAttempt jsonParseStub (postAttempt "c" "n" "u")
        (FetchEvent.responds 200 (some "zz")) =
      some { ok := responseOk 200, status := 200, data := JsValue.str "zz"
             info := (postAttempt "c" "n" "u").info } :=
  ⟨(bodyNormalization jsonParseStub (postAttempt "c" "n" "u") 200).1 "ok"
      (JsValue.obj [("room", JsValue.str "x")]) (by decide) rfl,
   (bodyNormalization jsonParseStub (postAttempt "c" "n" "u") 200).2.1 "zz"
      (by decide) rfl⟩

/-- C6: for every completed upstream response, the outcome's `ok` flag is
true if and only if the status is in the success range 200–299; every
other status yields `ok = false` together with that status and the
normalized body; and a thrown fetch produces no outcome at all (the
`some`/`none` distinction keeps an upstream rejection distinguishable
from an unreachable upstream). -/
theorem succeededIffSuccessRange (parse : String → Option JsValue)
    (a : Attempt) (s : Nat) (t : Option String) :
    (∃ out, executeAttempt parse a (FetchEvent.responds s t) = some out ∧
      (out.ok = true ↔ (200 ≤ s ∧ s ≤ 299)) ∧ out.status = s ∧
      out.data = normalizeBody parse (t.getD "") ∧ out.info = a.info) ∧
    ∀ b, executeAttempt parse a (FetchEvent.fails b) = none := by
  refine ⟨⟨_, rfl, ?_, rfl, rfl, rfl⟩, fun b => rfl⟩
  simp [responseOk]

/-- C7, counterexample: a descriptor whose execution fails at the
network level — or is cut off by the timeout's abort — during the body
read of an already-received 200 response (`upstream.text()` rejects,
modelled by `FetchEvent.responds 200 none`).  The claim says the
coordinator records this as the last known failure and advances to the
next candidate; instead the rejection is swallowed into an empty body
and the loop returns success immediately: the second descriptor is never
executed and no failure is recorded. -/
theorem readFailureSuccessNotAdvanced :
    dispatchLoop jsonParseStub (fun _ => FetchEvent.responds 200 none)
        [postAttempt "c" "n" "u1", postAttempt "c" "n" "u2"] 0
        noAttemptsError =
      ({ status := 200
         body := JsValue.obj
           [ ("joined", JsValue.bool true),
             ("upstreamStatus", JsValue.num 200),
             ("via", JsValue.str (postAttempt "c" "n" "u1").info),
             ("data", JsValue.obj []) ] },
       [postAttempt "c" "n" "u1"]) := rfl

/-- C7, amended: a descriptor whose fetch call itself fails or is
aborted by the timeout before a response arrives is treated identically
to one that returned a non-success status for fallback purposes: the
failure is recorded as the last known failure and the coordinator
advances to the next candidate rather than terminating.  (A timeout or
network failure during the body read of an already-received response is
instead swallowed into an empty body, and the outcome is judged by the
response status.) -/
theorem fetchFailureAdvances (parse : String → Option JsValue)
    (env : Nat → FetchEvent) (a : Attempt) (rest : List Attempt) (i : Nat)
    (le : LastError) :
    (∀ b, env i = FetchEvent.fails b →
      dispatchLoop parse env (a :: rest) i le =
        ((dispatchLoop parse env rest (i + 1)
            { status := 502
              message := "Fetch failed (timeout/CORS/host) via " ++ a.info
              data := none }).1,
         a :: (dispatchLoop parse env rest (i + 1)
            { status := 502
              message := "Fetch failed (timeout/CORS/host) via " ++ a.info
              data := none }).2)) ∧
    (∀ out, executeAttempt parse a (env i) = some out → out.ok = false →
      dispatchLoop parse env (a :: rest) i le =
        ((dispatchLoop parse env rest (i + 1)
            { status := out.status
              message := "Upstream error via " ++ out.info
              data := some out.data }).1,
         a :: (dispatchLoop parse env rest (i + 1)
            { status := out.status
              message := "Upstream error via " ++ out.info
              data := some out.data }).2)) := by
  constructor
  · intro b hev
    have hfb : attemptFailsB parse a (env i) = true := by
      simp [attemptFailsB, executeAttempt, hev]
    rw [dispatchLoop_cons_fail parse env a rest i le hfb]
    simp [recordedFailure, executeAttempt, hev]
  · intro out hex hok
    have hfb : attemptFailsB parse a (env i) = true := by
      simp [attemptFailsB, hex, hok]
    rw [dispatchLoop_cons_fail parse env a rest i le hfb]
    simp [recordedFailure, hex]

theorem fetchFailureAdvances_witness :
    dispatchLoop jsonParseStub (fun _ => FetchEvent.fails true)
        [postAttempt "c" "n" "u1", postAttempt "c" "n" "u2"] 0
        noAttemptsError =
      ((dispatchLoop jsonParseStub (fun _ => FetchEvent.fails true)
          [postAttempt "c" "n" "u2"] 1
          { status := 502
            message := "Fetch failed (timeout/CORS/host) via " ++
              (postAttempt "c" "n" "u1").info
            data := none }).1,
       postAttempt "c" "n" "u1" ::
         (dispatchLoop jsonParseStub (fun _ => FetchEvent.fails true)
          [postAttempt "c" "n" "u2"] 1
          { status := 502
            message := "Fetch failed (timeout/CORS/host) via " ++
              (postAttempt "c" "n" "u1").info
            data := none }).2) :=
  (fetchFailureAdvances jsonParseStub (fun _ => FetchEvent.fails true)
    (postAttempt "c" "n" "u1") [postAttempt "c" "n" "u2"] 0
    noAttemptsError).1 true rfl

/-- C8: for every inbound request in which code or name is empty or
absent (JS-falsy), the handler returns the client-error result with
status 400, no candidate is built and no network call occurs (the
executed-attempt trace is empty). -/
theorem missingFieldsRejected (parse : String → Option JsValue)
    (env : Nat → FetchEvent) (upstreamUrls : List String) (base : String)
    (code name : Option String)
    (h : jsFalsy code = true ∨ jsFalsy name = true) :
    handler parse env upstreamUrls base code name =
      ({ status := 400
         body := JsValue.obj [("error", JsValue.str "Missing code or name")] },
       []) := by
  cases h with
  | inl h => simp [handler, h]
  | inr h => simp [handler, h]

theorem missingFieldsRejected_witness :
    handler jsonParseStub (fun _ => FetchEvent.responds 200 (some "ok"))
        ["u"] "" none (some "n") =
      ({ status := 400
         body := JsValue.obj [("error", JsValue.str "Missing code or name")] },
       []) :=
  missingFieldsRejected jsonParseStub
    (fun _ => FetchEvent.responds 200 (some "ok")) ["u"] "" none (some "n")
    (Or.inl rfl)

/-- C9: for every request with valid fields whose candidate sequence is
empty (no explicit list and no base configured), the handler returns the
terminal failure with status 500 and the message "No attempts made.",
with no descriptor executed; and this message is distinguishable from
every message an executed-then-failed attempt records (those always
reference a descriptor label via `recordedFailure`). -/
theorem noCandidatesTerminal (parse : String → Option JsValue)
    (env : Nat → FetchEvent) (code name : Option String)
    (hc : jsFalsy code = false) (hn : jsFalsy name = false) :
    handler parse env [] "" code name =
      ({ status := 500
         body := JsValue.obj
           [ ("joined", JsValue.bool false),
             ("error", JsValue.str "No attempts made."),
             ("upstreamData", JsValue.null) ] },
       []) ∧
    ∀ (p : String → Option JsValue) (a : Attempt) (ev : FetchEvent),
      (recordedFailure p a ev).message ≠ "No attempts made." := by
  constructor
  · simp [handler, hc, hn, buildAttempts, defaultCandidates, dispatchLoop,
      failureBody]
  · intro p a ev
    cases hex : executeAttempt p a ev with
    | none =>
        simp only [recordedFailure, hex]
        exact append_ne_of_length_lt _ _ _ (by decide)
    | some out =>
        simp only [recordedFailure, hex]
        exact append_ne_of_length_lt _ _ _ (by decide)

theorem noCandidatesTerminal_witness :
    handler jsonParseStub (fun _ => FetchEvent.fails true) [] ""
        (some "c") (some "n") =
      ({ status := 500
         body := JsValue.obj
           [ ("joined", JsValue.bool false),
             ("error", JsValue.str "No attempts made."),
             ("upstreamData", JsValue.null) ] },
       []) :=
  (noCandidatesTerminal jsonParseStub (fun _ => FetchEvent.fails true)
    (some "c") (some "n") rfl rfl).1

/-- C10: whenever the caller-facing body is a success object
(`joined: true` — some attempt succeeded), the HTTP status of the
response is 200, regardless of the upstream's own success status code;
the upstream status appears only in the body's `upstreamStatus` field. -/
theorem successAlwaysStatus200 (parse : String → Option JsValue)
    (env : Nat → FetchEvent) (upstreamUrls : List String) (base : String)
    (code name : Option String)
    (h : lookupField (handler parse env upstreamUrls base code name).1.body
      "joined" = some (JsValue.bool true)) :
    (handler parse env upstreamUrls base code name).1.status = 200 := by
  by_cases hf : (jsFalsy code || jsFalsy name) = true
  · simp [handler, hf, lookupField, List.find?] at h
  · simp only [handler, hf, if_false, Bool.not_eq_true] at h ⊢
    exact dispatchLoop_joined_imp_200 parse env _ 0 _ h

theorem successAlwaysStatus200_witness :
    (handler jsonParseStub (fun _ => FetchEvent.responds 299 (some "hi"))
      ["u"] "" (some "c") (some "n")).1.status = 200 :=
  successAlwaysStatus200 jsonParseStub
    (fun _ => FetchEvent.responds 299 (some "hi")) ["u"] ""
    (some "c") (some "n") rfl
